import Mathlib

/-!
Verification development for `skyvern/forge/sdk/api/llm/api_handler_factory.py`.

The Python module is a factory producing an asynchronous handler that wraps a
remote LLM completion API: it persists observability artifacts, builds the
message payload, invokes the remote model, accounts cost, and parses the
response.  We embed it shallowly: every external collaborator (artifact
manager, message builder, remote completion API, cost estimator, database,
response parser, settings) is a field of an explicit `Env` record returning
`Except`, and one invocation of the produced handler is a pure function from
the inputs and the environment to a result together with the ordered trace of
side effects it performed (`List Event`).  Raised Python exceptions become
`Except.error`; an uncaught collaborator exception propagates as
`HandlerErr.collab` carrying the collaborator error unchanged, while remote
completion failures are wrapped as `HandlerErr.llmProviderError` exactly where
the source wraps them.
-/

namespace Skyvern

/-- Byte blobs (Python `bytes`) as lists of byte values. -/
abbrev Bytes := List Nat

/-- Opaque error raised by an artifact / database / parser / builder
collaborator.  The handler never inspects it, so a plain string suffices. -/
abbrev CollabErr := String

/-- Messages produced by the external `llm_messages_builder` collaborator;
each provider message is kept opaque. -/
abbrev Messages := List String

/-- Opaque raw response object returned by `litellm.acompletion`. -/
abbrev Response := String

/-- Opaque parsed response returned by `parse_api_response`. -/
abbrev Parsed := String

/-- Monetary cost estimate (`litellm.completion_cost`), modelled exactly. -/
abbrev Cost := Rat

/-- The fields of `skyvern.forge.sdk.models.Step` the handler reads:
`task_id`, `step_id`, `organization_id`. -/
structure Step where
  task_id : String
  step_id : String
  organization_id : Option String
deriving DecidableEq, Repr

/-- The artifact types used by the handler
(`skyvern.forge.sdk.artifact.models.ArtifactType`). -/
inductive ArtifactType where
  | LLM_PROMPT
  | SCREENSHOT_LLM
  | LLM_REQUEST
  | LLM_RESPONSE
  | LLM_RESPONSE_PARSED
deriving DecidableEq, Repr, BEq

/-- Values of invocation parameters (Python ints/floats/strings in the
`parameters` dict); numeric values are modelled as rationals. -/
inductive ParamValue where
  | num (q : Rat)
  | str (s : String)
deriving DecidableEq, Repr

/-- The `parameters` mapping passed to the remote completion call. -/
abbrev Params := List (String × ParamValue)

/-- The two process-wide settings the module reads
(`SettingsManager.get_settings()`). -/
structure Settings where
  LLM_CONFIG_MAX_TOKENS : Nat
  LLM_CONFIG_TEMPERATURE : Rat
deriving DecidableEq, Repr

/-- The resolved provider configuration fields the handler reads
(`llm_config.model_name`, `llm_config.supports_vision`). -/
structure LLMConfig where
  model_name : String
  supports_vision : Bool
deriving DecidableEq, Repr

/-- Error raised by the remote completion call: the source separately catches
`openai.OpenAIError` and any other `Exception` (logging the latter), wrapping
both identically. -/
inductive RemoteErr where
  | openAIError (msg : String)
  | otherError (msg : String)
deriving DecidableEq, Repr

/-- Errors that can terminate one handler invocation:
`LLMProviderError(llm_key) from e` for remote-call failures, or an uncaught
collaborator error propagating unchanged. -/
inductive HandlerErr where
  | llmProviderError (llm_key : String) (cause : RemoteErr)
  | collab (e : CollabErr)
deriving DecidableEq, Repr

/-- One observable side effect performed by a handler invocation, in the order
performed: an awaited `create_artifact`, the `llm_messages_builder` call with
the (possibly discarded) screenshots it received, the `litellm.acompletion`
call with the exact model / messages / parameters it received, the
`update_step` cost report, and the `parse_api_response` call. -/
inductive Event where
  | artifactCreated (step : Step) (t : ArtifactType) (data : Bytes)
  | messagesBuilt (prompt : String) (screenshots : Option (List Bytes))
  | remoteCalled (model : String) (messages : Messages) (parameters : Params)
  | stepUpdated (task_id : String) (step_id : String)
      (organization_id : Option String) (incremental_cost : Cost)
  | responseParsed (response : Response)
deriving DecidableEq, Repr

/-- The environment of one invocation: the configuration captured by the
closure, the live process-wide settings at call time, and the external
collaborators.  Fallible collaborators return `Except`. -/
structure Env where
  config : LLMConfig
  settings : Settings
  createArtifact : Step → ArtifactType → Bytes → Except CollabErr Unit
  llm_messages_builder : String → Option (List Bytes) → Except CollabErr Messages
  acompletion : String → Messages → Params → Except RemoteErr Response
  model_dump_json : Response → String
  completion_cost : Response → Except CollabErr Cost
  update_step : String → String → Option String → Cost → Except CollabErr Unit
  parse_api_response : Response → Except CollabErr Parsed
  dump_parsed : Parsed → String

/-- UTF-8 encoding of a string (Python `s.encode("utf-8")`). -/
def strBytes (s : String) : Bytes :=
  s.toUTF8.toList.map (fun b => b.toNat)

/-- String form of a parameter value, used only inside the JSON-like request
serialization. -/
def pvalString : ParamValue → String
  | ParamValue.num q => toString q.num ++ "/" ++ toString q.den
  | ParamValue.str s => s

/-- Serialization of the assembled request
`json.dumps(\x7b"model": ..., "messages": ..., **parameters\x7d)`: a concrete
injective-enough stand-in for the JSON encoding, keeping the merge order
model, messages, then parameters. -/
def encodeRequest (model : String) (messages : Messages) (parameters : Params) : Bytes :=
  strBytes ("model=" ++ model ++ ";messages=" ++ String.intercalate "|" messages
    ++ ";" ++ String.intercalate ";" (parameters.map (fun p => p.1 ++ "=" ++ pvalString p.2)))

/-- `LLMAPIHandlerFactory.get_api_parameters`: reads the two settings fields
and returns the default parameter mapping. -/
def get_api_parameters (s : Settings) : Params :=
  [("max_tokens", ParamValue.num (s.LLM_CONFIG_MAX_TOKENS : Rat)),
   ("temperature", ParamValue.num s.LLM_CONFIG_TEMPERATURE)]

/-- Lines 33-34 of the source: `if parameters is None: parameters =
LLMAPIHandlerFactory.get_api_parameters()`, reading settings at call time. -/
def resolveParameters (env : Env) (parameters : Option Params) : Params :=
  match parameters with
  | none => get_api_parameters env.settings
  | some p => p

/-- The `for screenshot in screenshots or []` loop: persist each screenshot as
a `SCREENSHOT_LLM` artifact, in input order, stopping at the first failure.
Returns the events performed by the loop and the error, if any. -/
def persistScreenshots (env : Env) (s : Step) : List Bytes → List Event × Option CollabErr
  | [] => ([], none)
  | b :: rest =>
    match env.createArtifact s ArtifactType.SCREENSHOT_LLM b with
    | Except.error e => ([], some e)
    | Except.ok _ =>
      let r := persistScreenshots env s rest
      (Event.artifactCreated s ArtifactType.SCREENSHOT_LLM b :: r.1, r.2)

/-- Lines 93-99 of the source: `parse_api_response(response)` followed, when a
step is supplied, by the `LLM_RESPONSE_PARSED` artifact write.  Returns the
outcome and the events this tail performs. -/
def llm_api_handler_parse (env : Env) (step : Option Step) (response : Response) :
    Except HandlerErr Parsed × List Event :=
  match env.parse_api_response response with
  | Except.error e => (Except.error (HandlerErr.collab e), [Event.responseParsed response])
  | Except.ok parsed =>
    match step with
    | none => (Except.ok parsed, [Event.responseParsed response])
    | some s =>
      match env.createArtifact s ArtifactType.LLM_RESPONSE_PARSED
          (strBytes (env.dump_parsed parsed)) with
      | Except.error e => (Except.error (HandlerErr.collab e), [Event.responseParsed response])
      | Except.ok _ =>
        (Except.ok parsed,
         [Event.responseParsed response,
          Event.artifactCreated s ArtifactType.LLM_RESPONSE_PARSED
            (strBytes (env.dump_parsed parsed))])

/-- Lines 79-92 of the source: when a step is supplied, persist the raw
response as an `LLM_RESPONSE` artifact, compute the cost, and report it via
`update_step`; then continue with parsing. -/
def llm_api_handler_post (env : Env) (step : Option Step) (response : Response) :
    Except HandlerErr Parsed × List Event :=
  match step with
  | none => llm_api_handler_parse env none response
  | some s =>
    match env.createArtifact s ArtifactType.LLM_RESPONSE
        (strBytes (env.model_dump_json response)) with
    | Except.error e => (Except.error (HandlerErr.collab e), [])
    | Except.ok _ =>
      match env.completion_cost response with
      | Except.error e =>
        (Except.error (HandlerErr.collab e),
         [Event.artifactCreated s ArtifactType.LLM_RESPONSE
            (strBytes (env.model_dump_json response))])
      | Except.ok llm_cost =>
        match env.update_step s.task_id s.step_id s.organization_id llm_cost with
        | Except.error e =>
          (Except.error (HandlerErr.collab e),
           [Event.artifactCreated s ArtifactType.LLM_RESPONSE
              (strBytes (env.model_dump_json response))])
        | Except.ok _ =>
          let r := llm_api_handler_parse env (some s) response
          (r.1,
           Event.artifactCreated s ArtifactType.LLM_RESPONSE
               (strBytes (env.model_dump_json response))
             :: Event.stepUpdated s.task_id s.step_id s.organization_id llm_cost
             :: r.2)

/-- Lines 66-78 of the source: the guarded `litellm.acompletion` call.  Both
`except` clauses raise `LLMProviderError(llm_key)` chained from the original
error; on success execution continues with the post-call side effects. -/
def llm_api_handler_call (env : Env) (llm_key : String) (step : Option Step)
    (messages : Messages) (parameters : Params) :
    Except HandlerErr Parsed × List Event :=
  match env.acompletion env.config.model_name messages parameters with
  | Except.error e =>
    (Except.error (HandlerErr.llmProviderError llm_key e),
     [Event.remoteCalled env.config.model_name messages parameters])
  | Except.ok response =>
    let r := llm_api_handler_post env step response
    (r.1, Event.remoteCalled env.config.model_name messages parameters :: r.2)

/-- Lines 49-51 of the source: `if not llm_config.supports_vision:
screenshots = None` — the caller-supplied screenshots survive only when the
configuration supports vision. -/
def discardedScreenshots (env : Env) (screenshots : Option (List Bytes)) :
    Option (List Bytes) :=
  if env.config.supports_vision then screenshots else none

/-- Lines 49-65 of the source: discard screenshots when the configuration does
not support vision, build the messages, and (when a step is supplied) persist
the assembled request as an `LLM_REQUEST` artifact before the remote call. -/
def llm_api_handler_rest (env : Env) (llm_key : String) (prompt : String)
    (step : Option Step) (screenshots : Option (List Bytes)) (parameters : Params) :
    Except HandlerErr Parsed × List Event :=
  let screenshots1 := discardedScreenshots env screenshots
  match env.llm_messages_builder prompt screenshots1 with
  | Except.error e =>
    (Except.error (HandlerErr.collab e), [Event.messagesBuilt prompt screenshots1])
  | Except.ok messages =>
    match step with
    | none =>
      let r := llm_api_handler_call env llm_key none messages parameters
      (r.1, Event.messagesBuilt prompt screenshots1 :: r.2)
    | some s =>
      match env.createArtifact s ArtifactType.LLM_REQUEST
          (encodeRequest env.config.model_name messages parameters) with
      | Except.error e =>
        (Except.error (HandlerErr.collab e), [Event.messagesBuilt prompt screenshots1])
      | Except.ok _ =>
        let r := llm_api_handler_call env llm_key (some s) messages parameters
        (r.1,
         Event.messagesBuilt prompt screenshots1
           :: Event.artifactCreated s ArtifactType.LLM_REQUEST
                (encodeRequest env.config.model_name messages parameters)
           :: r.2)

/-- One invocation of the produced handler (`llm_api_handler`, lines 27-100):
resolve default parameters, persist the prompt and screenshot artifacts when a
step is supplied, then continue with message building, the request artifact,
the remote call, the post-call side effects, and parsing.  Returns the outcome
and the full ordered trace of side effects performed. -/
def llm_api_handler (env : Env) (llm_key : String) (prompt : String)
    (step : Option Step) (screenshots : Option (List Bytes))
    (parameters0 : Option Params) : Except HandlerErr Parsed × List Event :=
  let parameters := resolveParameters env parameters0
  match step with
  | none => llm_api_handler_rest env llm_key prompt none screenshots parameters
  | some s =>
    match env.createArtifact s ArtifactType.LLM_PROMPT (strBytes prompt) with
    | Except.error e => (Except.error (HandlerErr.collab e), [])
    | Except.ok _ =>
      match persistScreenshots env s (screenshots.getD []) with
      | (t, some e) =>
        (Except.error (HandlerErr.collab e),
         Event.artifactCreated s ArtifactType.LLM_PROMPT (strBytes prompt) :: t)
      | (t, none) =>
        let r := llm_api_handler_rest env llm_key prompt (some s) screenshots parameters
        (r.1, Event.artifactCreated s ArtifactType.LLM_PROMPT (strBytes prompt) :: (t ++ r.2))

/-- Error raised by `register_custom_handler` on a duplicate key. -/
inductive RegistryErr where
  | duplicateCustomLLMProviderError (llm_key : String)
deriving DecidableEq, Repr

/-- `LLMAPIHandlerFactory.register_custom_handler` (lines 111-115): the class
attribute `_custom_handlers` dict is modelled as an association list; on a
duplicate key `DuplicateCustomLLMProviderError(llm_key)` is raised and the
dict is left unchanged, otherwise the handler is stored under the key. -/
def register_custom_handler {H : Type} (custom_handlers : List (String × H))
    (llm_key : String) (handler : H) : Except RegistryErr (List (String × H)) :=
  match custom_handlers.lookup llm_key with
  | some _ => Except.error (RegistryErr.duplicateCustomLLMProviderError llm_key)
  | none => Except.ok (custom_handlers ++ [(llm_key, handler)])

/-- Error raised by `LLMConfigRegistry.get_config` for an unknown key. -/
inductive ConfigErr where
  | configurationNotFound (llm_key : String)
deriving DecidableEq, Repr

/-- Defunctionalized result of `get_llm_api_handler`: either a handler taken
from the custom-handler registry (the shape the spec describes), or the
closure the factory builds, represented by the configuration it captures.
The source only ever produces `factoryBuilt`; `custom` exists so that the
spec's registry-consultation claim can be stated and compared. -/
inductive ResolvedHandler (H : Type) where
  | custom (h : H)
  | factoryBuilt (config : LLMConfig)
deriving DecidableEq, Repr

/-- `LLMAPIHandlerFactory.get_llm_api_handler` (lines 23-102): resolves the
configuration via `LLMConfigRegistry.get_config(llm_key)` and returns the
`llm_api_handler` closure capturing it.  The `custom_handlers` argument models
the class attribute `_custom_handlers`; note the source function never reads
it. -/
def get_llm_api_handler {H : Type} (custom_handlers : List (String × H))
    (configs : List (String × LLMConfig)) (llm_key : String) :
    Except ConfigErr (ResolvedHandler H) :=
  match configs.lookup llm_key with
  | none => Except.error (ConfigErr.configurationNotFound llm_key)
  | some cfg =>
    let _ := custom_handlers
    Except.ok (ResolvedHandler.factoryBuilt cfg)

/-- Recognizer for the remote-call event. -/
def isRemoteCalled : Event → Bool
  | Event.remoteCalled _ _ _ => true
  | _ => false

/-- The events of a trace performed before the remote completion call. -/
def eventsBeforeRemoteCall (tr : List Event) : List Event :=
  tr.takeWhile (fun ev => !isRemoteCalled ev)

/-- The events of a trace performed after the remote completion call. -/
def eventsAfterRemoteCall (tr : List Event) : List Event :=
  (tr.dropWhile (fun ev => !isRemoteCalled ev)).drop 1

/-- Number of artifact-creation events of a given type in a trace. -/
def countArtifactsOfType (tr : List Event) (t : ArtifactType) : Nat :=
  (tr.filter (fun ev => match ev with
    | Event.artifactCreated _ t2 _ => t2 == t
    | _ => false)).length

/-- Concrete Step used in witnesses. -/
def step0 : Step := { task_id := "t1", step_id := "s1", organization_id := some "o1" }

/-- Concrete environment in which every collaborator succeeds and the
configuration supports vision. -/
def env0 : Env := {
  config := { model_name := "m", supports_vision := true },
  settings := { LLM_CONFIG_MAX_TOKENS := 500, LLM_CONFIG_TEMPERATURE := 0 },
  createArtifact := fun _ _ _ => Except.ok (),
  llm_messages_builder := fun p _ => Except.ok [p],
  acompletion := fun _ _ _ => Except.ok "resp",
  model_dump_json := fun r => r,
  completion_cost := fun _ => Except.ok 1,
  update_step := fun _ _ _ _ => Except.ok (),
  parse_api_response := fun r => Except.ok r,
  dump_parsed := fun p => p }

/-- When every screenshot write succeeds, the screenshot loop creates exactly
one `SCREENSHOT_LLM` artifact per screenshot, in input order. -/
lemma persistScreenshots_ok (env : Env) (s : Step) (shots : List Bytes)
    (h : ∀ b ∈ shots, env.createArtifact s ArtifactType.SCREENSHOT_LLM b = Except.ok ()) :
    persistScreenshots env s shots =
      (shots.map (Event.artifactCreated s ArtifactType.SCREENSHOT_LLM), none) := by
  induction shots with
  | nil => rfl
  | cons b rest ih =>
    have hb := h b (by simp)
    simp [persistScreenshots, hb, ih (fun c hc => h c (by simp [hc]))]

/-- C1 (corrected): when a Step is supplied and every collaborator call
succeeds, the invocation performs exactly one `LLM_PROMPT` artifact write and
one `SCREENSHOT_LLM` artifact write per supplied screenshot (in input order)
before the remote completion call; the single `LLM_REQUEST` artifact write
also happens before the remote call (not after, as the claim states); and
exactly one `LLM_RESPONSE` and one `LLM_RESPONSE_PARSED` artifact write happen
after the remote call, in that order.  The conclusion pins the entire trace of
the invocation. -/
theorem claim1_artifact_sequence (env : Env) (llm_key prompt : String) (s : Step)
    (shots : List Bytes) (parameters0 : Option Params)
    (msgs : Messages) (resp : Response) (llm_cost : Cost) (parsed : Parsed)
    (hpa : env.createArtifact s ArtifactType.LLM_PROMPT (strBytes prompt) = Except.ok ())
    (hsa : ∀ b ∈ shots, env.createArtifact s ArtifactType.SCREENSHOT_LLM b = Except.ok ())
    (hmb : env.llm_messages_builder prompt
        (discardedScreenshots env (some shots)) = Except.ok msgs)
    (hra : env.createArtifact s ArtifactType.LLM_REQUEST
        (encodeRequest env.config.model_name msgs (resolveParameters env parameters0)) =
        Except.ok ())
    (hac : env.acompletion env.config.model_name msgs (resolveParameters env parameters0) =
        Except.ok resp)
    (hre : env.createArtifact s ArtifactType.LLM_RESPONSE
        (strBytes (env.model_dump_json resp)) = Except.ok ())
    (hcc : env.completion_cost resp = Except.ok llm_cost)
    (hus : env.update_step s.task_id s.step_id s.organization_id llm_cost = Except.ok ())
    (hpr : env.parse_api_response resp = Except.ok parsed)
    (hpe : env.createArtifact s ArtifactType.LLM_RESPONSE_PARSED
        (strBytes (env.dump_parsed parsed)) = Except.ok ()) :
    llm_api_handler env llm_key prompt (some s) (some shots) parameters0 =
      (Except.ok parsed,
       Event.artifactCreated s ArtifactType.LLM_PROMPT (strBytes prompt)
         :: (shots.map (Event.artifactCreated s ArtifactType.SCREENSHOT_LLM)
           ++ [Event.messagesBuilt prompt
                 (discardedScreenshots env (some shots)),
               Event.artifactCreated s ArtifactType.LLM_REQUEST
                 (encodeRequest env.config.model_name msgs (resolveParameters env parameters0)),
               Event.remoteCalled env.config.model_name msgs (resolveParameters env parameters0),
               Event.artifactCreated s ArtifactType.LLM_RESPONSE
                 (strBytes (env.model_dump_json resp)),
               Event.stepUpdated s.task_id s.step_id s.organization_id llm_cost,
               Event.responseParsed resp,
               Event.artifactCreated s ArtifactType.LLM_RESPONSE_PARSED
                 (strBytes (env.dump_parsed parsed))])) := by
  simp [llm_api_handler, hpa, persistScreenshots_ok env s shots hsa,
    llm_api_handler_rest, hmb, hra, llm_api_handler_call, hac,
    llm_api_handler_post, hre, hcc, hus, llm_api_handler_parse, hpr, hpe]

/-- Witness for C1: the fully successful run in the concrete environment
`env0`, with two screenshots, produces exactly the claimed trace. -/
theorem claim1_artifact_sequence_witness :
    llm_api_handler env0 "k" "p" (some step0) (some [[1], [2]]) none =
      (Except.ok "resp",
       Event.artifactCreated step0 ArtifactType.LLM_PROMPT (strBytes "p")
         :: ([[1], [2]].map (Event.artifactCreated step0 ArtifactType.SCREENSHOT_LLM)
           ++ [Event.messagesBuilt "p" (some [[1], [2]]),
               Event.artifactCreated step0 ArtifactType.LLM_REQUEST
                 (encodeRequest "m" ["p"] (resolveParameters env0 none)),
               Event.remoteCalled "m" ["p"] (resolveParameters env0 none),
               Event.artifactCreated step0 ArtifactType.LLM_RESPONSE (strBytes "resp"),
               Event.stepUpdated "t1" "s1" (some "o1") 1,
               Event.responseParsed "resp",
               Event.artifactCreated step0 ArtifactType.LLM_RESPONSE_PARSED
                 (strBytes "resp")])) :=
  claim1_artifact_sequence env0 "k" "p" step0 [[1], [2]] none ["p"] "resp" 1 "resp"
    rfl (fun _ _ => rfl) rfl rfl rfl rfl rfl rfl rfl rfl

/-- Counterexample to C1 as stated: in a successful run the single
`LLM_REQUEST` artifact is created before the remote completion call, and no
`LLM_REQUEST` artifact is created after it, contradicting the claim that
exactly one `LLM_REQUEST` artifact is created after the remote call. -/
theorem claim1_counterexample :
    countArtifactsOfType
        (eventsAfterRemoteCall
          (llm_api_handler env0 "k" "p" (some step0) (some [[1]]) none).2)
        ArtifactType.LLM_REQUEST = 0 ∧
    countArtifactsOfType
        (eventsBeforeRemoteCall
          (llm_api_handler env0 "k" "p" (some step0) (some [[1]]) none).2)
        ArtifactType.LLM_REQUEST = 1 := by
  constructor <;> rfl

/-- Concrete environment in which the remote completion call fails and every
other collaborator succeeds. -/
def env0rf : Env := { env0 with
  acompletion := fun _ _ _ => Except.error (RemoteErr.openAIError "boom") }

/-- Concrete environment in which the `LLM_REQUEST` artifact write fails and
every other collaborator succeeds. -/
def env0qf : Env := { env0 with
  createArtifact := fun _ t _ =>
    if t = ArtifactType.LLM_REQUEST then Except.error "diskfail" else Except.ok () }

/-- Concrete environment whose configuration does not support vision, with
every collaborator succeeding. -/
def env0nv : Env := { env0 with
  config := { model_name := "m", supports_vision := false } }

/-- Concrete environment in which response parsing fails while the remote
call and every other collaborator succeed. -/
def env0pf : Env := { env0 with
  parse_api_response := fun _ => Except.error "parsefail" }

/-- C2: when a Step is supplied, the pre-call stages succeed and the remote
completion call fails with any error, the invocation raises
`LLMProviderError` carrying the provider key and chained from the original
error, and the trace ends at the remote call: no `LLM_RESPONSE` artifact, no
cost update, and no later artifact is produced. -/
theorem claim2_remote_error_wrapped (env : Env) (llm_key prompt : String) (s : Step)
    (shots : List Bytes) (parameters0 : Option Params) (msgs : Messages) (re : RemoteErr)
    (hpa : env.createArtifact s ArtifactType.LLM_PROMPT (strBytes prompt) = Except.ok ())
    (hsa : ∀ b ∈ shots, env.createArtifact s ArtifactType.SCREENSHOT_LLM b = Except.ok ())
    (hmb : env.llm_messages_builder prompt
        (discardedScreenshots env (some shots)) = Except.ok msgs)
    (hra : env.createArtifact s ArtifactType.LLM_REQUEST
        (encodeRequest env.config.model_name msgs (resolveParameters env parameters0)) =
        Except.ok ())
    (hac : env.acompletion env.config.model_name msgs (resolveParameters env parameters0) =
        Except.error re) :
    llm_api_handler env llm_key prompt (some s) (some shots) parameters0 =
      (Except.error (HandlerErr.llmProviderError llm_key re),
       Event.artifactCreated s ArtifactType.LLM_PROMPT (strBytes prompt)
         :: (shots.map (Event.artifactCreated s ArtifactType.SCREENSHOT_LLM)
           ++ [Event.messagesBuilt prompt
                 (discardedScreenshots env (some shots)),
               Event.artifactCreated s ArtifactType.LLM_REQUEST
                 (encodeRequest env.config.model_name msgs (resolveParameters env parameters0)),
               Event.remoteCalled env.config.model_name msgs
                 (resolveParameters env parameters0)])) := by
  simp [llm_api_handler, hpa, persistScreenshots_ok env s shots hsa,
    llm_api_handler_rest, hmb, hra, llm_api_handler_call, hac]

/-- Witness for C2: in `env0rf` the invocation fails with `LLMProviderError`
wrapping the original remote error and the trace stops at the remote call. -/
theorem claim2_remote_error_wrapped_witness :
    llm_api_handler env0rf "k" "p" (some step0) (some [[1]]) none =
      (Except.error (HandlerErr.llmProviderError "k" (RemoteErr.openAIError "boom")),
       Event.artifactCreated step0 ArtifactType.LLM_PROMPT (strBytes "p")
         :: ([[1]].map (Event.artifactCreated step0 ArtifactType.SCREENSHOT_LLM)
           ++ [Event.messagesBuilt "p" (some [[1]]),
               Event.artifactCreated step0 ArtifactType.LLM_REQUEST
                 (encodeRequest "m" ["p"] (resolveParameters env0rf none)),
               Event.remoteCalled "m" ["p"] (resolveParameters env0rf none)])) :=
  claim2_remote_error_wrapped env0rf "k" "p" step0 [[1]] none ["p"]
    (RemoteErr.openAIError "boom") rfl (fun _ _ => rfl) rfl rfl rfl

/-- C5: when no Step is supplied and the remaining collaborators succeed, the
invocation creates no artifact and issues no cost update, but message
construction, the remote completion call and response parsing still occur and
the parsed result is returned; the conclusion pins the entire trace. -/
theorem claim5_no_step_no_artifacts (env : Env) (llm_key prompt : String)
    (screenshots : Option (List Bytes)) (parameters0 : Option Params)
    (msgs : Messages) (resp : Response) (parsed : Parsed)
    (hmb : env.llm_messages_builder prompt
        (discardedScreenshots env screenshots) = Except.ok msgs)
    (hac : env.acompletion env.config.model_name msgs (resolveParameters env parameters0) =
        Except.ok resp)
    (hpr : env.parse_api_response resp = Except.ok parsed) :
    llm_api_handler env llm_key prompt none screenshots parameters0 =
      (Except.ok parsed,
       [Event.messagesBuilt prompt
          (discardedScreenshots env screenshots),
        Event.remoteCalled env.config.model_name msgs (resolveParameters env parameters0),
        Event.responseParsed resp]) := by
  simp [llm_api_handler, llm_api_handler_rest, hmb, llm_api_handler_call, hac,
    llm_api_handler_post, llm_api_handler_parse, hpr]

/-- Witness for C5: in `env0`, with no Step, the trace holds exactly the
message build, the remote call and the parse, and the parsed result is
returned. -/
theorem claim5_no_step_no_artifacts_witness :
    llm_api_handler env0 "k" "p" none (some [[1]]) none =
      (Except.ok "resp",
       [Event.messagesBuilt "p" (some [[1]]),
        Event.remoteCalled "m" ["p"] (resolveParameters env0 none),
        Event.responseParsed "resp"]) :=
  claim5_no_step_no_artifacts env0 "k" "p" (some [[1]]) none ["p"] "resp" "resp"
    rfl rfl rfl

/-- C7: a collaborator failure is not caught inside the handler: when the
`LLM_REQUEST` artifact write fails, its error propagates unchanged (as
`HandlerErr.collab` carrying the collaborator error, not an
`LLMProviderError`) and the remote completion call never happens — the trace
ends at the message build. -/
theorem claim7_collab_error_propagates (env : Env) (llm_key prompt : String) (s : Step)
    (shots : List Bytes) (parameters0 : Option Params) (msgs : Messages) (e : CollabErr)
    (hpa : env.createArtifact s ArtifactType.LLM_PROMPT (strBytes prompt) = Except.ok ())
    (hsa : ∀ b ∈ shots, env.createArtifact s ArtifactType.SCREENSHOT_LLM b = Except.ok ())
    (hmb : env.llm_messages_builder prompt
        (discardedScreenshots env (some shots)) = Except.ok msgs)
    (hra : env.createArtifact s ArtifactType.LLM_REQUEST
        (encodeRequest env.config.model_name msgs (resolveParameters env parameters0)) =
        Except.error e) :
    llm_api_handler env llm_key prompt (some s) (some shots) parameters0 =
      (Except.error (HandlerErr.collab e),
       Event.artifactCreated s ArtifactType.LLM_PROMPT (strBytes prompt)
         :: (shots.map (Event.artifactCreated s ArtifactType.SCREENSHOT_LLM)
           ++ [Event.messagesBuilt prompt
                 (discardedScreenshots env (some shots))])) := by
  simp [llm_api_handler, hpa, persistScreenshots_ok env s shots hsa,
    llm_api_handler_rest, hmb, hra]

/-- Witness for C7: in `env0qf` the failed request-artifact write aborts the
invocation with the collaborator error unchanged and no remote call. -/
theorem claim7_collab_error_propagates_witness :
    llm_api_handler env0qf "k" "p" (some step0) (some [[1]]) none =
      (Except.error (HandlerErr.collab "diskfail"),
       Event.artifactCreated step0 ArtifactType.LLM_PROMPT (strBytes "p")
         :: ([[1]].map (Event.artifactCreated step0 ArtifactType.SCREENSHOT_LLM)
           ++ [Event.messagesBuilt "p" (some [[1]])])) :=
  claim7_collab_error_propagates env0qf "k" "p" step0 [[1]] none ["p"] "diskfail"
    rfl (fun _ _ => rfl) rfl rfl

/-- The trace of the post-artifact stage always begins with the message-build
event, carrying the screenshots that survive the vision-based discard. -/
lemma rest_trace_head (env : Env) (llm_key prompt : String) (step : Option Step)
    (screenshots : Option (List Bytes)) (parameters : Params) :
    ∃ tail, (llm_api_handler_rest env llm_key prompt step screenshots parameters).2 =
      Event.messagesBuilt prompt
        (discardedScreenshots env screenshots) :: tail := by
  simp only [llm_api_handler_rest]
  split
  · exact ⟨[], rfl⟩
  · split
    · exact ⟨_, rfl⟩
    · split
      · exact ⟨[], rfl⟩
      · exact ⟨_, rfl⟩

/-- C9: when a Step and screenshots are supplied and the prompt/screenshot
artifact writes succeed, a `SCREENSHOT_LLM` artifact is created for every
supplied screenshot, in input order, even though the configuration does not
support vision: the persistence loop runs before the vision-based discard,
after which the messages are built with no screenshots at all. -/
theorem claim9_screenshots_persisted_without_vision (env : Env)
    (llm_key prompt : String) (s : Step) (shots : List Bytes)
    (parameters0 : Option Params)
    (hv : env.config.supports_vision = false)
    (hpa : env.createArtifact s ArtifactType.LLM_PROMPT (strBytes prompt) = Except.ok ())
    (hsa : ∀ b ∈ shots, env.createArtifact s ArtifactType.SCREENSHOT_LLM b = Except.ok ()) :
    ∃ tail,
      (llm_api_handler env llm_key prompt (some s) (some shots) parameters0).2 =
        Event.artifactCreated s ArtifactType.LLM_PROMPT (strBytes prompt)
          :: (shots.map (Event.artifactCreated s ArtifactType.SCREENSHOT_LLM)
            ++ Event.messagesBuilt prompt none :: tail) := by
  obtain ⟨tail, htail⟩ := rest_trace_head env llm_key prompt (some s) (some shots)
    (resolveParameters env parameters0)
  have hdisc : discardedScreenshots env (some shots) = none := by
    simp [discardedScreenshots, hv]
  rw [hdisc] at htail
  refine ⟨tail, ?_⟩
  simp [llm_api_handler, hpa, persistScreenshots_ok env s shots hsa, htail]

/-- Witness for C9: in the vision-less environment `env0nv` both supplied
screenshots are persisted, and the messages are then built without them. -/
theorem claim9_screenshots_persisted_without_vision_witness :
    ∃ tail,
      (llm_api_handler env0nv "k" "p" (some step0) (some [[1], [2]]) none).2 =
        Event.artifactCreated step0 ArtifactType.LLM_PROMPT (strBytes "p")
          :: ([[1], [2]].map (Event.artifactCreated step0 ArtifactType.SCREENSHOT_LLM)
            ++ Event.messagesBuilt "p" none :: tail) :=
  claim9_screenshots_persisted_without_vision env0nv "k" "p" step0 [[1], [2]] none
    rfl rfl (fun _ _ => rfl)

/-- The parse stage performs no message-build event. -/
lemma messagesBuilt_not_in_parse (env : Env) (step : Option Step) (r : Response)
    (p : String) (sc : Option (List Bytes)) :
    Event.messagesBuilt p sc ∉ (llm_api_handler_parse env step r).2 := by
  unfold llm_api_handler_parse
  split
  · simp
  · split
    · simp
    · split <;> simp

/-- The post-call stage performs no message-build event. -/
lemma messagesBuilt_not_in_post (env : Env) (step : Option Step) (r : Response)
    (p : String) (sc : Option (List Bytes)) :
    Event.messagesBuilt p sc ∉ (llm_api_handler_post env step r).2 := by
  unfold llm_api_handler_post
  split
  · exact messagesBuilt_not_in_parse env none r p sc
  · split
    · simp
    · split
      · simp
      · split
        · simp
        · simp [messagesBuilt_not_in_parse]

/-- The guarded-call stage performs no message-build event. -/
lemma messagesBuilt_not_in_call (env : Env) (llm_key : String) (step : Option Step)
    (messages : Messages) (parameters : Params)
    (p : String) (sc : Option (List Bytes)) :
    Event.messagesBuilt p sc ∉ (llm_api_handler_call env llm_key step messages parameters).2 := by
  unfold llm_api_handler_call
  split
  · simp
  · simp [messagesBuilt_not_in_post]

/-- Any message-build event performed after the artifact stage carries the
original prompt and exactly the screenshots surviving the vision discard. -/
lemma messagesBuilt_in_rest (env : Env) (llm_key prompt : String) (step : Option Step)
    (screenshots : Option (List Bytes)) (parameters : Params)
    (p : String) (sc : Option (List Bytes))
    (h : Event.messagesBuilt p sc ∈
      (llm_api_handler_rest env llm_key prompt step screenshots parameters).2) :
    p = prompt ∧ sc = (discardedScreenshots env screenshots) := by
  simp only [llm_api_handler_rest] at h
  cases hmb : env.llm_messages_builder prompt (discardedScreenshots env screenshots) with
  | error e =>
    simp only [hmb] at h
    simp at h
    exact h
  | ok messages =>
    simp only [hmb] at h
    cases step with
    | none =>
      simp [messagesBuilt_not_in_call] at h
      exact h
    | some s =>
      cases hca : env.createArtifact s ArtifactType.LLM_REQUEST
          (encodeRequest env.config.model_name messages parameters) with
      | error e =>
        simp only [hca] at h
        simp at h
        exact h
      | ok u =>
        simp only [hca] at h
        simp [messagesBuilt_not_in_call] at h
        exact h

/-- Every event of the screenshot-persistence loop is a `SCREENSHOT_LLM`
artifact write for the supplied step. -/
lemma ev_in_persistScreenshots (env : Env) (s : Step) :
    ∀ (l : List Bytes) (ev : Event), ev ∈ (persistScreenshots env s l).1 →
      ∃ b, ev = Event.artifactCreated s ArtifactType.SCREENSHOT_LLM b := by
  intro l
  induction l with
  | nil =>
    intro ev h
    simp [persistScreenshots] at h
  | cons b rest ih =>
    intro ev h
    simp only [persistScreenshots] at h
    split at h
    · simp at h
    · simp only [List.mem_cons] at h
      rcases h with h | h
      · exact ⟨b, h⟩
      · exact ih ev h

/-- C3: when the resolved configuration does not support vision, every
message-build event of the invocation received no screenshots, whatever
screenshots the caller supplied: the discard precedes message construction. -/
theorem claim3_vision_false_discards_screenshots (env : Env) (llm_key prompt : String)
    (step : Option Step) (screenshots : Option (List Bytes)) (parameters0 : Option Params)
    (p : String) (sc : Option (List Bytes))
    (hv : env.config.supports_vision = false)
    (h : Event.messagesBuilt p sc ∈
      (llm_api_handler env llm_key prompt step screenshots parameters0).2) :
    sc = none := by
  have hdisc : discardedScreenshots env screenshots = none := by
    simp [discardedScreenshots, hv]
  cases step with
  | none =>
    simp only [llm_api_handler] at h
    have h2 := (messagesBuilt_in_rest env llm_key prompt none screenshots
      (resolveParameters env parameters0) p sc h).2
    rw [hdisc] at h2
    exact h2
  | some s =>
    simp only [llm_api_handler] at h
    cases hca : env.createArtifact s ArtifactType.LLM_PROMPT (strBytes prompt) with
    | error e =>
      simp only [hca] at h
      simp at h
    | ok u =>
      simp only [hca] at h
      cases hps : persistScreenshots env s (screenshots.getD []) with
      | mk t r =>
        simp only [hps] at h
        cases r with
        | some e =>
          simp only [List.mem_cons] at h
          rcases h with h | h
          · exact absurd h (by simp)
          · have h1 : Event.messagesBuilt p sc ∈
                (persistScreenshots env s (screenshots.getD [])).1 := by
              rw [hps]
              exact h
            obtain ⟨b, hb⟩ := ev_in_persistScreenshots env s _ _ h1
            exact absurd hb (by simp)
        | none =>
          simp only [List.mem_cons, List.mem_append] at h
          rcases h with h | h | h
          · exact absurd h (by simp)
          · have h1 : Event.messagesBuilt p sc ∈
                (persistScreenshots env s (screenshots.getD [])).1 := by
              rw [hps]
              exact h
            obtain ⟨b, hb⟩ := ev_in_persistScreenshots env s _ _ h1
            exact absurd hb (by simp)
          · have h2 := (messagesBuilt_in_rest env llm_key prompt (some s) screenshots
              (resolveParameters env parameters0) p sc h).2
            rw [hdisc] at h2
            exact h2

/-- Witness for C3: in `env0nv`, with screenshots supplied by the caller, the
message-build event of the trace carries no screenshots. -/
theorem claim3_vision_false_discards_screenshots_witness :
    (none : Option (List Bytes)) = none :=
  claim3_vision_false_discards_screenshots env0nv "k" "p" (some step0) (some [[1]])
    none "p" none rfl (by decide)

/-- The parse stage performs no remote-call event. -/
lemma remoteCalled_not_in_parse (env : Env) (step : Option Step) (r : Response)
    (m : String) (msgs : Messages) (ps : Params) :
    Event.remoteCalled m msgs ps ∉ (llm_api_handler_parse env step r).2 := by
  unfold llm_api_handler_parse
  split
  · simp
  · split
    · simp
    · split <;> simp

/-- The post-call stage performs no remote-call event. -/
lemma remoteCalled_not_in_post (env : Env) (step : Option Step) (r : Response)
    (m : String) (msgs : Messages) (ps : Params) :
    Event.remoteCalled m msgs ps ∉ (llm_api_handler_post env step r).2 := by
  unfold llm_api_handler_post
  split
  · exact remoteCalled_not_in_parse env none r m msgs ps
  · split
    · simp
    · split
      · simp
      · split
        · simp
        · simp [remoteCalled_not_in_parse]

/-- Any remote-call event of the guarded-call stage carries exactly the
configured model name, the built messages and the resolved parameters. -/
lemma remoteCalled_in_call (env : Env) (llm_key : String) (step : Option Step)
    (messages : Messages) (parameters : Params)
    (m : String) (msgs : Messages) (ps : Params)
    (h : Event.remoteCalled m msgs ps ∈
      (llm_api_handler_call env llm_key step messages parameters).2) :
    m = env.config.model_name ∧ msgs = messages ∧ ps = parameters := by
  unfold llm_api_handler_call at h
  cases hac : env.acompletion env.config.model_name messages parameters with
  | error e =>
    simp only [hac] at h
    simp at h
    exact h
  | ok resp =>
    simp only [hac] at h
    simp [remoteCalled_not_in_post] at h
    exact h

/-- Any remote-call event performed after the artifact stage carries the
configured model name and the resolved parameters. -/
lemma remoteCalled_in_rest (env : Env) (llm_key prompt : String) (step : Option Step)
    (screenshots : Option (List Bytes)) (parameters : Params)
    (m : String) (msgs : Messages) (ps : Params)
    (h : Event.remoteCalled m msgs ps ∈
      (llm_api_handler_rest env llm_key prompt step screenshots parameters).2) :
    m = env.config.model_name ∧ ps = parameters := by
  simp only [llm_api_handler_rest] at h
  cases hmb : env.llm_messages_builder prompt (discardedScreenshots env screenshots) with
  | error e =>
    simp only [hmb] at h
    simp at h
  | ok messages =>
    simp only [hmb] at h
    cases step with
    | none =>
      simp at h
      obtain ⟨h1, _, h3⟩ :=
        remoteCalled_in_call env llm_key none messages parameters m msgs ps h
      exact ⟨h1, h3⟩
    | some s =>
      cases hca : env.createArtifact s ArtifactType.LLM_REQUEST
          (encodeRequest env.config.model_name messages parameters) with
      | error e =>
        simp only [hca] at h
        simp at h
      | ok u =>
        simp only [hca] at h
        simp at h
        obtain ⟨h1, _, h3⟩ :=
          remoteCalled_in_call env llm_key (some s) messages parameters m msgs ps h
        exact ⟨h1, h3⟩

/-- C4: when no explicit parameters are supplied, the remote completion call
receives exactly the `max_tokens` and `temperature` defaults read from the
environment settings in force at call time, together with the configured
model name (and the built messages). -/
theorem claim4_default_parameters (env : Env) (llm_key prompt : String)
    (step : Option Step) (screenshots : Option (List Bytes))
    (m : String) (msgs : Messages) (ps : Params)
    (h : Event.remoteCalled m msgs ps ∈
      (llm_api_handler env llm_key prompt step screenshots none).2) :
    ps = get_api_parameters env.settings ∧ m = env.config.model_name := by
  cases step with
  | none =>
    simp only [llm_api_handler] at h
    obtain ⟨h1, h2⟩ := remoteCalled_in_rest env llm_key prompt none screenshots
      (resolveParameters env none) m msgs ps h
    exact ⟨h2, h1⟩
  | some s =>
    simp only [llm_api_handler] at h
    cases hca : env.createArtifact s ArtifactType.LLM_PROMPT (strBytes prompt) with
    | error e =>
      simp only [hca] at h
      simp at h
    | ok u =>
      simp only [hca] at h
      cases hps : persistScreenshots env s (screenshots.getD []) with
      | mk t r =>
        simp only [hps] at h
        cases r with
        | some e =>
          simp only [List.mem_cons] at h
          rcases h with h | h
          · exact absurd h (by simp)
          · have h1 : Event.remoteCalled m msgs ps ∈
                (persistScreenshots env s (screenshots.getD [])).1 := by
              rw [hps]
              exact h
            obtain ⟨b, hb⟩ := ev_in_persistScreenshots env s _ _ h1
            exact absurd hb (by simp)
        | none =>
          simp only [List.mem_cons, List.mem_append] at h
          rcases h with h | h | h
          · exact absurd h (by simp)
          · have h1 : Event.remoteCalled m msgs ps ∈
                (persistScreenshots env s (screenshots.getD [])).1 := by
              rw [hps]
              exact h
            obtain ⟨b, hb⟩ := ev_in_persistScreenshots env s _ _ h1
            exact absurd hb (by simp)
          · obtain ⟨h1, h2⟩ := remoteCalled_in_rest env llm_key prompt (some s) screenshots
              (resolveParameters env none) m msgs ps h
            exact ⟨h2, h1⟩

/-- Witness for C4: in `env0` the remote-call event of the trace carries the
defaults read from `env0`'s settings and `env0`'s model name. -/
theorem claim4_default_parameters_witness :
    resolveParameters env0 none = get_api_parameters env0.settings ∧
      "m" = env0.config.model_name :=
  claim4_default_parameters env0 "k" "p" (some step0) (some [[1]]) "m" ["p"]
    (resolveParameters env0 none) (by decide)

/-- Any error outcome of the parse stage is a collaborator error propagating
unchanged. -/
lemma parse_error_is_collab (env : Env) (step : Option Step) (r : Response)
    (err : HandlerErr) (h : (llm_api_handler_parse env step r).1 = Except.error err) :
    ∃ e, err = HandlerErr.collab e := by
  unfold llm_api_handler_parse at h
  cases hpr : env.parse_api_response r with
  | error e =>
    simp only [hpr] at h
    simp at h
    exact ⟨e, h.symm⟩
  | ok parsed =>
    simp only [hpr] at h
    cases step with
    | none => simp at h
    | some s =>
      cases hpe : env.createArtifact s ArtifactType.LLM_RESPONSE_PARSED
          (strBytes (env.dump_parsed parsed)) with
      | error e =>
        simp only [hpe] at h
        simp at h
        exact ⟨e, h.symm⟩
      | ok u =>
        simp only [hpe] at h
        simp at h

/-- Any error outcome of the post-call stage is a collaborator error
propagating unchanged. -/
lemma post_error_is_collab (env : Env) (step : Option Step) (r : Response)
    (err : HandlerErr) (h : (llm_api_handler_post env step r).1 = Except.error err) :
    ∃ e, err = HandlerErr.collab e := by
  cases step with
  | none =>
    simp only [llm_api_handler_post] at h
    exact parse_error_is_collab env none r err h
  | some s =>
    simp only [llm_api_handler_post] at h
    cases hre : env.createArtifact s ArtifactType.LLM_RESPONSE
        (strBytes (env.model_dump_json r)) with
    | error e =>
      simp only [hre] at h
      simp at h
      exact ⟨e, h.symm⟩
    | ok u =>
      simp only [hre] at h
      cases hcc : env.completion_cost r with
      | error e =>
        simp only [hcc] at h
        simp at h
        exact ⟨e, h.symm⟩
      | ok c =>
        simp only [hcc] at h
        cases hus : env.update_step s.task_id s.step_id s.organization_id c with
        | error e =>
          simp only [hus] at h
          simp at h
          exact ⟨e, h.symm⟩
        | ok u2 =>
          simp only [hus] at h
          exact parse_error_is_collab env (some s) r err h

/-- When the remote completion call succeeds, any error outcome of the
guarded-call stage is a collaborator error propagating unchanged. -/
lemma call_error_is_collab (env : Env) (llm_key : String) (step : Option Step)
    (messages : Messages) (parameters : Params) (err : HandlerErr)
    (hok : ∀ m msgs ps, ∃ resp, env.acompletion m msgs ps = Except.ok resp)
    (h : (llm_api_handler_call env llm_key step messages parameters).1 =
      Except.error err) :
    ∃ e, err = HandlerErr.collab e := by
  obtain ⟨resp, hresp⟩ := hok env.config.model_name messages parameters
  simp only [llm_api_handler_call, hresp] at h
  exact post_error_is_collab env step resp err h

/-- When the remote completion call succeeds, any error outcome of the
post-artifact stage is a collaborator error propagating unchanged. -/
lemma rest_error_is_collab (env : Env) (llm_key prompt : String) (step : Option Step)
    (screenshots : Option (List Bytes)) (parameters : Params) (err : HandlerErr)
    (hok : ∀ m msgs ps, ∃ resp, env.acompletion m msgs ps = Except.ok resp)
    (h : (llm_api_handler_rest env llm_key prompt step screenshots parameters).1 =
      Except.error err) :
    ∃ e, err = HandlerErr.collab e := by
  simp only [llm_api_handler_rest] at h
  cases hmb : env.llm_messages_builder prompt (discardedScreenshots env screenshots) with
  | error e =>
    simp only [hmb] at h
    simp at h
    exact ⟨e, h.symm⟩
  | ok messages =>
    simp only [hmb] at h
    cases step with
    | none =>
      simp at h
      exact call_error_is_collab env llm_key none messages parameters err hok h
    | some s =>
      cases hca : env.createArtifact s ArtifactType.LLM_REQUEST
          (encodeRequest env.config.model_name messages parameters) with
      | error e =>
        simp only [hca] at h
        simp at h
        exact ⟨e, h.symm⟩
      | ok u =>
        simp only [hca] at h
        exact call_error_is_collab env llm_key (some s) messages parameters err hok h

/-- C10: when the remote completion call succeeds, any error that terminates
the invocation (a failed response-artifact write, cost computation, cost
update, response parsing, or parsed-response-artifact write) propagates as
the unchanged collaborator error — it is never converted to
`LLMProviderError`.  The returned trace is exactly the list of side effects
performed before the failure, so artifacts and cost updates already performed
remain in effect: nothing is rolled back. -/
theorem claim10_post_call_errors_unwrapped (env : Env) (llm_key prompt : String)
    (step : Option Step) (screenshots : Option (List Bytes))
    (parameters0 : Option Params) (err : HandlerErr)
    (hok : ∀ m msgs ps, ∃ resp, env.acompletion m msgs ps = Except.ok resp)
    (h : (llm_api_handler env llm_key prompt step screenshots parameters0).1 =
      Except.error err) :
    ∃ e, err = HandlerErr.collab e := by
  cases step with
  | none =>
    simp only [llm_api_handler] at h
    exact rest_error_is_collab env llm_key prompt none screenshots
      (resolveParameters env parameters0) err hok h
  | some s =>
    simp only [llm_api_handler] at h
    cases hca : env.createArtifact s ArtifactType.LLM_PROMPT (strBytes prompt) with
    | error e =>
      simp only [hca] at h
      simp at h
      exact ⟨e, h.symm⟩
    | ok u =>
      simp only [hca] at h
      cases hps : persistScreenshots env s (screenshots.getD []) with
      | mk t r =>
        simp only [hps] at h
        cases r with
        | some e =>
          simp at h
          exact ⟨e, h.symm⟩
        | none =>
          simp at h
          exact rest_error_is_collab env llm_key prompt (some s) screenshots
            (resolveParameters env parameters0) err hok h

/-- Witness for C10: in `env0pf` (remote call succeeds, parsing fails) the
invocation terminates with the parser's error unchanged. -/
theorem claim10_post_call_errors_unwrapped_witness :
    ∃ e, HandlerErr.collab "parsefail" = HandlerErr.collab e :=
  claim10_post_call_errors_unwrapped env0pf "k" "p" (some step0) none none
    (HandlerErr.collab "parsefail") (fun _ _ _ => ⟨"resp", rfl⟩) rfl

/-- Helper for C6: appending a fresh key to an association list makes lookup
of that key find the appended value. -/
lemma lookup_append_self {H : Type} (reg : List (String × H)) (llm_key : String)
    (h1 : H) (hl : reg.lookup llm_key = none) :
    (reg ++ [(llm_key, h1)]).lookup llm_key = some h1 := by
  induction reg with
  | nil => simp [List.lookup]
  | cons a tl ih =>
    obtain ⟨k, v⟩ := a
    rw [List.cons_append]
    cases hk : llm_key == k with
    | true =>
      simp [List.lookup, hk] at hl
    | false =>
      simp only [List.lookup, hk] at hl ⊢
      exact ih hl

/-- C6: registering a handler under an already-registered key fails with
`DuplicateCustomLLMProviderError` and leaves the registry unchanged — the
first registration's handler is still the one found; registering under a
fresh key stores the new handler there. -/
theorem claim6_register_duplicate_rejected (H : Type) (reg : List (String × H))
    (llm_key : String) (h0 h1 : H) :
    (reg.lookup llm_key = some h0 →
      register_custom_handler reg llm_key h1 =
        Except.error (RegistryErr.duplicateCustomLLMProviderError llm_key) ∧
      reg.lookup llm_key = some h0) ∧
    (reg.lookup llm_key = none →
      register_custom_handler reg llm_key h1 = Except.ok (reg ++ [(llm_key, h1)]) ∧
      (reg ++ [(llm_key, h1)]).lookup llm_key = some h1) := by
  constructor
  · intro hl
    exact ⟨by simp [register_custom_handler, hl], hl⟩
  · intro hl
    exact ⟨by simp [register_custom_handler, hl], lookup_append_self reg llm_key h1 hl⟩

/-- Witness for C6: a duplicate registration of key a fails and the first
handler 5 is still found; a fresh registration of key a next to key b stores
handler 7. -/
theorem claim6_register_duplicate_rejected_witness :
    (register_custom_handler [("a", 5)] "a" 7 =
        Except.error (RegistryErr.duplicateCustomLLMProviderError "a") ∧
      ([("a", 5)] : List (String × Nat)).lookup "a" = some 5) ∧
    (register_custom_handler [("b", 5)] "a" 7 = Except.ok ([("b", 5)] ++ [("a", 7)]) ∧
      (([("b", 5)] : List (String × Nat)) ++ [("a", 7)]).lookup "a" = some 7) :=
  ⟨(claim6_register_duplicate_rejected Nat [("a", 5)] "a" 5 7).1 (by decide),
   (claim6_register_duplicate_rejected Nat [("b", 5)] "a" 5 7).2 (by decide)⟩

/-- C8 (corrected): resolution does not consult the custom-handler registry —
`get_llm_api_handler` returns the same result whatever the registry holds,
always building the handler from the configuration registry alone. -/
theorem claim8_registry_not_consulted (H : Type) (reg1 reg2 : List (String × H))
    (configs : List (String × LLMConfig)) (llm_key : String) :
    get_llm_api_handler reg1 configs llm_key = get_llm_api_handler reg2 configs llm_key := by
  unfold get_llm_api_handler
  rfl

/-- Counterexample to C8 as stated: with handler 7 registered under key k,
resolving k does not return the registered handler — it returns the
factory-built closure over the resolved configuration. -/
theorem claim8_counterexample :
    get_llm_api_handler [("k", (7 : Nat))]
        [("k", { model_name := "m", supports_vision := true })] "k" ≠
      Except.ok (ResolvedHandler.custom 7) := by
  intro hcontra
  simp [get_llm_api_handler, List.lookup] at hcontra

end Skyvern
